import Mathlib

/-
Verification of the fake-data pattern detector
(scripts/fake_data_detector.py): a shallow embedding of its data
model, AST walker, per-site heuristics, text scanner and scoring,
together with theorems settling the specification claims.
-/

/-! ## String utilities (Python `in`, `str.lower`, `str.split`) -/

/-- Lower-case every character (Python `str.lower()` on the relevant alphabets). -/
def lowerStr (s : String) : String := String.mk (s.toList.map Char.toLower)

/-- Does `l` start with `needle`? -/
def startsWithL : List Char → List Char → Bool
  | [], _ => true
  | _ :: _, [] => false
  | n :: ns, c :: cs => if c = n then startsWithL ns cs else false

/-- Does `hay` contain `needle` as a contiguous sublist? -/
def containsL (needle : List Char) : List Char → Bool
  | [] => startsWithL needle []
  | c :: cs => startsWithL needle (c :: cs) || containsL needle cs

/-- Python `needle in hay` on strings. -/
def strContains (hay needle : String) : Bool := containsL needle.toList hay.toList

/-- Python regex `\s` character class (ASCII whitespace). -/
def isSpaceC (c : Char) : Bool :=
  c = ' ' || c = '\t' || c = '\n' || c = '\r' || c = Char.ofNat 11 || c = Char.ofNat 12

/-- Split on newline characters, Python `source.split("\n")`. -/
def splitLinesL : List Char → List (List Char)
  | [] => [[]]
  | c :: rest =>
    match splitLinesL rest with
    | [] => [[]]
    | l :: ls => if c = '\n' then [] :: l :: ls else (c :: l) :: ls

/-- Python `source.split("\n")` as a list of strings. -/
def splitNewlines (s : String) : List String := (splitLinesL s.toList).map String.mk

/-- Python `line.split("#")[0]`: the part of the line before the first `#`. -/
def takeBeforeHash (line : String) : String :=
  String.mk (line.toList.takeWhile (fun c => c ≠ '#'))

/-! ## The two regular expressions, compiled to executable matchers

`re.search` tries a match at every start position; each matcher below
decides a match anchored at the head of the remaining character list. -/

/-- Try to match `=\s*\d+\.\d+\s*\*` anchored at the head of `l`.
The regex is deterministic (each `\d+` is followed by a non-digit),
so maximal munch is exact. -/
def magicFrom (l : List Char) : Bool :=
  match l with
  | '=' :: r0 =>
    match r0.dropWhile isSpaceC with
    | d :: r2 =>
      if d.isDigit then
        match r2.dropWhile Char.isDigit with
        | '.' :: r3 =>
          match r3 with
          | e :: r4 =>
            if e.isDigit then
              match (r4.dropWhile Char.isDigit).dropWhile isSpaceC with
              | '*' :: _ => true
              | _ => false
            else false
          | [] => false
        | _ => false
      else false
    | [] => false
  | _ => false

/-- `re.search`: does `p` match anchored at some suffix? -/
def searchL (p : List Char → Bool) : List Char → Bool
  | [] => p []
  | c :: cs => p (c :: cs) || searchL p cs

/-- Python `re.search(r"=\s*\d+\.\d+\s*\*", line)` as a Boolean. -/
def reSearchMagic (line : String) : Bool := searchL magicFrom line.toList

/-- The `["\']` character class: a double or single quote. -/
def quoteChar (c : Char) : Bool := c = '"' || c = Char.ofNat 39

/-- The `.*(?:완료|success|done)` tail: one of the completion tokens occurs
somewhere in the rest of the (single, newline-free) line. -/
def fakeTail (l : List Char) : Bool :=
  containsL "완료".toList l || containsL "success".toList l || containsL "done".toList l

/-- Try to match `print\s*\(\s*["\'].*(?:완료|success|done)` anchored at the
head of an already lower-cased character list. -/
def fakeFrom (l : List Char) : Bool :=
  if startsWithL "print".toList l then
    match (l.drop 5).dropWhile isSpaceC with
    | '(' :: r1 =>
      match r1.dropWhile isSpaceC with
      | c :: r2 => if quoteChar c then fakeTail r2 else false
      | [] => false
    | _ => false
  else false

/-- Python `re.search(r'print\s*\(\s*["\'].*(?:완료|success|done)', line, re.IGNORECASE)`:
case-insensitivity is realized by lower-casing the line (every literal
letter of the pattern is already lower case). -/
def reSearchFakeSuccess (line : String) : Bool := searchL fakeFrom (lowerStr line).toList

/-! ## Issue model and scoring -/

/-- One detected finding (`Issue` dataclass). -/
structure Issue where
  severity : String
  file : String
  line : Nat
  message : String
  pattern : String
  suggestion : Option String := none
  deriving DecidableEq, Repr

/-- Aggregate scan result (`DetectionResult` dataclass). -/
structure DetectionResult where
  issues : List Issue
  files_scanned : Nat
  deriving DecidableEq, Repr

/-- `DetectionResult.critical_count`. -/
def critical_count (r : DetectionResult) : Nat :=
  r.issues.countP (fun i => i.severity == "CRITICAL")

/-- `DetectionResult.warning_count`. -/
def warning_count (r : DetectionResult) : Nat :=
  r.issues.countP (fun i => i.severity == "WARNING")

/-- Count of INFO-severity issues (used to state the scoring claim). -/
def info_count (r : DetectionResult) : Nat :=
  r.issues.countP (fun i => i.severity == "INFO")

/-- `weights.get(i.severity, 1)` with `weights = {"CRITICAL": 10, "WARNING": 3, "INFO": 1}`. -/
def severityWeight (s : String) : Nat :=
  if s == "CRITICAL" then 10 else if s == "WARNING" then 3 else if s == "INFO" then 1 else 1

/-- `DetectionResult.bs_score`: weighted severity total divided by `max(files_scanned, 1)`. -/
def bs_score (r : DetectionResult) : ℚ :=
  ((r.issues.map (fun i => severityWeight i.severity)).sum : ℚ) / (max r.files_scanned 1 : ℚ)

/-- `DetectionResult.passed`. -/
def passed (r : DetectionResult) : Bool := critical_count r == 0

/-! ## Static tables of the detector -/

/-- `FakeDataDetector.FAKE_DATA_PATTERNS`, in insertion order. -/
def FAKE_DATA_PATTERNS : List (String × String) :=
  [("np.random.rand", "CRITICAL"),
   ("np.random.randn", "CRITICAL"),
   ("np.random.random", "CRITICAL"),
   ("np.random.uniform", "CRITICAL"),
   ("np.random.normal", "CRITICAL"),
   ("np.random.choice", "WARNING"),
   ("random.random", "CRITICAL"),
   ("random.uniform", "CRITICAL"),
   ("faker.Faker", "WARNING")]

/-- `FakeDataDetector.ALLOWED_CONTEXTS`. -/
def ALLOWED_CONTEXTS : List String :=
  ["test_", "mock_", "seed", "random_state", "shuffle", "sample"]

/-- `FakeDataDetector.FEATURE_PATTERNS` with the default environment value
`"feature,program,arbitrage"`. -/
def FEATURE_PATTERNS : List String := ["feature", "program", "arbitrage"]

/-! ## The syntax tree fragment the detector inspects

A shallow model of the Python `ast` nodes the walker dispatches on.
Child lists are first-class inductive lists (`ExprList`, `StmtList`,
`HandlerList`) so that all traversals are plain structural recursions. -/

mutual
/-- Expression nodes: identifiers, attribute access, calls, and a
generic leaf/binary node standing for every other expression kind. -/
inductive Expr where
  | nameE (id : String)
  | attributeE (value : Expr) (attr : String)
  | callE (func : Expr) (args : ExprList) (lineno : Nat)
  | binOpE (left : Expr) (right : Expr)
  | constE
/-- A list of expressions (call arguments). -/
inductive ExprList where
  | nil
  | cons (head : Expr) (tail : ExprList)
end

/-- Assignment targets; only `Name` targets are analyzed. -/
inductive Target where
  | nameT (id : String)
  | tupleT
  | attributeT
  | subscriptT
  deriving DecidableEq, Repr

mutual
/-- Statement nodes: the five dispatched kinds plus `pass` and
expression statements; `tryS` carries its handlers. -/
inductive Stmt where
  | functionDef (name : String) (body : StmtList) (lineno : Nat)
  | asyncFunctionDef (name : String) (body : StmtList) (lineno : Nat)
  | classDef (name : String) (body : StmtList) (lineno : Nat)
  | assignS (targets : List Target) (value : Expr) (lineno : Nat)
  | exprS (value : Expr) (lineno : Nat)
  | tryS (body : StmtList) (handlers : HandlerList) (orelse : StmtList) (finalbody : StmtList) (lineno : Nat)
  | passS (lineno : Nat)
/-- A list of statements (a body). -/
inductive StmtList where
  | nil
  | cons (head : Stmt) (tail : StmtList)
/-- An `except` clause: optional declared filter, body, line. -/
inductive Handler where
  | mk (typ : Option Expr) (body : StmtList) (lineno : Nat)
/-- A list of `except` clauses. -/
inductive HandlerList where
  | nil
  | cons (head : Handler) (tail : HandlerList)
end

/-- Build an `ExprList` from a Lean list. -/
def ExprList.ofList : List Expr → ExprList
  | [] => .nil
  | e :: es => .cons e (ExprList.ofList es)

/-- Build a `StmtList` from a Lean list. -/
def StmtList.ofList : List Stmt → StmtList
  | [] => .nil
  | s :: ss => .cons s (StmtList.ofList ss)

/-- `isinstance(n, ast.Pass)`. -/
def isPass : Stmt → Bool
  | .passS _ => true
  | _ => false

/-- Python `not node.body` on a body list. -/
def isEmptySL : StmtList → Bool
  | .nil => true
  | .cons _ _ => false

/-- Python `all(isinstance(n, ast.Pass) for n in node.body)`. -/
def allPass : StmtList → Bool
  | .nil => true
  | .cons s rest => isPass s && allPass rest

/-! ## Per-site emission functions (the bodies of the visit methods) -/

/-- `FakeDataDetector._get_call_name`: segments gathered by the
attribute-chain walk, in append order (innermost attribute first).
The walk stops, keeping what it has, as soon as the current node is
neither an `Attribute` nor a `Name`. -/
def collectParts : Expr → List String
  | .attributeE v attr => attr :: collectParts v
  | .nameE id => [id]
  | .callE _ _ _ => []
  | .binOpE _ _ => []
  | .constE => []

/-- Python `".".join(parts)`. -/
def joinDots : List String → String
  | [] => ""
  | [p] => p
  | p :: rest => p ++ "." ++ joinDots rest

/-- `FakeDataDetector._get_call_name` applied to `node.func`. -/
def get_call_name (f : Expr) : String := joinDots (collectParts f).reverse

/-- `FakeDataDetector._is_allowed_context` as a function of the two
scope-context slots. -/
def is_allowed_context (cc cf : Option String) : Bool :=
  let context := (cc.getD "") ++ "." ++ (cf.getD "")
  ALLOWED_CONTEXTS.any (fun a => strContains (lowerStr context) a)

/-- The issue appended by `visit_Call` for one matched rule. -/
def callPatternIssue (fn : String) (lineno : Nat) (call_name : String)
    (p : String × String) : Issue :=
  { severity := p.2, file := fn, line := lineno,
    message := "가짜 데이터 생성 패턴: " ++ call_name,
    pattern := p.1,
    suggestion := some "실제 API 데이터 또는 검증된 데이터 소스 사용" }

/-- The issues `visit_Call` appends for one call node: one per rule
whose key occurs in the resolved name, unless the context is allowed. -/
def call_issues (cc cf : Option String) (fn : String) (f : Expr) (lineno : Nat) : List Issue :=
  let call_name := get_call_name f
  FAKE_DATA_PATTERNS.foldl
    (fun acc p =>
      if strContains call_name p.1 then
        if is_allowed_context cc cf then acc
        else acc ++ [callPatternIssue fn lineno call_name p]
      else acc)
    []

/-- `FakeDataDetector._get_source_line`. -/
def get_source_line (lines : List String) (lineno : Nat) : String :=
  if 0 < lineno ∧ lineno ≤ lines.length then lines.getD (lineno - 1) "" else ""

/-- The `feature_random_assignment` issue of `visit_Assign`. -/
def featureRandomIssue (fn : String) (lineno : Nat) (var_name : String) : Issue :=
  { severity := "CRITICAL", file := fn, line := lineno,
    message := "피처 \x27" ++ var_name ++ "\x27에 랜덤 데이터 할당",
    pattern := "feature_random_assignment",
    suggestion := some "실제 API 데이터 사용 또는 피처 제거" }

/-- The `magic_number` issue of `visit_Assign`. -/
def magicNumberIssue (fn : String) (lineno : Nat) (var_name : String) : Issue :=
  { severity := "WARNING", file := fn, line := lineno,
    message := "피처 \x27" ++ var_name ++ "\x27에 매직 넘버 사용",
    pattern := "magic_number",
    suggestion := some "상수로 정의하거나 설정 파일에서 로드" }

/-- The issues `visit_Assign` appends: per `Name` target, both nested
checks are guarded by the feature-name condition on the target. -/
def assign_issues (featurePatterns : List String) (fn : String) (lines : List String)
    (targets : List Target) (lineno : Nat) : List Issue :=
  let line := get_source_line lines lineno
  targets.foldl
    (fun acc t =>
      match t with
      | .nameT var_name =>
        if featurePatterns.any (fun kw => strContains (lowerStr var_name) kw) then
          let acc1 :=
            if strContains line "np.random" || strContains line "random." then
              acc ++ [featureRandomIssue fn lineno var_name]
            else acc
          if reSearchMagic line then acc1 ++ [magicNumberIssue fn lineno var_name]
          else acc1
        else acc
      | _ => acc)
    []

/-- The `exception_hiding` issue of `visit_ExceptHandler`. -/
def exception_hiding_issue (fn : String) (lineno : Nat) : Issue :=
  { severity := "CRITICAL", file := fn, line := lineno,
    message := "예외 은폐 (except: pass)",
    pattern := "exception_hiding",
    suggestion := some "적절한 에러 처리 또는 로깅 추가" }

/-- The issues `visit_ExceptHandler` appends: fires when the body is
empty or all statements are `pass`. -/
def handler_issues (fn : String) (body : StmtList) (lineno : Nat) : List Issue :=
  if isEmptySL body || allPass body then [exception_hiding_issue fn lineno] else []

/-! ## Text pattern scanner -/

/-- The `fake_success` issue of `_detect_text_patterns`. -/
def fake_success_issue (fn : String) (i : Nat) : Issue :=
  { severity := "WARNING", file := fn, line := i,
    message := "근거 없는 완료 메시지",
    pattern := "fake_success",
    suggestion := some "실제 검증 결과 기반 메시지로 변경" }

/-- The `todo_pass` issue of `_detect_text_patterns`. -/
def todo_pass_issue (fn : String) (i : Nat) : Issue :=
  { severity := "WARNING", file := fn, line := i,
    message := "TODO + pass 미완성 코드",
    pattern := "todo_pass",
    suggestion := some "구현 완료 또는 NotImplementedError 사용" }

/-- The issues one raw line contributes: the fake-success regex runs on
the full line, the `pass` token is looked up only before the first `#`,
the `TODO` token on the full line. -/
def line_issues (fn : String) (i : Nat) (line : String) : List Issue :=
  let code_line := takeBeforeHash line
  (if reSearchFakeSuccess line then [fake_success_issue fn i] else []) ++
  (if strContains line "TODO" && strContains code_line "pass" then [todo_pass_issue fn i] else [])

/-- Scan lines with 1-based numbering starting at `i`. -/
def textScan (fn : String) (i : Nat) : List String → List Issue
  | [] => []
  | line :: rest => line_issues fn i line ++ textScan fn (i + 1) rest

/-- `FakeDataDetector._detect_text_patterns`. -/
def detect_text_patterns (fn : String) (lines : List String) : List Issue :=
  textScan fn 1 lines

/-! ## The tree walker -/

/-- The mutable state of a `FakeDataDetector` instance. -/
structure DetState where
  filename : String
  lines : List String
  featurePatterns : List String
  current_function : Option String
  current_class : Option String
  issues : List Issue
  deriving DecidableEq, Repr

mutual
/-- Visit one statement: the `visit_*` methods plus the generic visit
of children, in source order. -/
def visitStmt (s : DetState) : Stmt → DetState
  | .functionDef name body _ =>
    let s1 := visitStmtList { s with current_function := some name } body
    { s1 with current_function := none }
  | .asyncFunctionDef name body _ =>
    let s1 := visitStmtList { s with current_function := some name } body
    { s1 with current_function := none }
  | .classDef name body _ =>
    let s1 := visitStmtList { s with current_class := some name } body
    { s1 with current_class := none }
  | .assignS targets value lineno =>
    let s1 := { s with issues :=
      s.issues ++ assign_issues s.featurePatterns s.filename s.lines targets lineno }
    visitExpr s1 value
  | .exprS value _ => visitExpr s value
  | .tryS body handlers orelse finalbody _ =>
    visitStmtList (visitStmtList (visitHandlerList (visitStmtList s body) handlers) orelse) finalbody
  | .passS _ => s
/-- Visit a statement list left to right. -/
def visitStmtList (s : DetState) : StmtList → DetState
  | .nil => s
  | .cons st rest => visitStmtList (visitStmt s st) rest
/-- Visit one `except` clause: the emptiness check, then the declared
filter, then the body. -/
def visitHandler (s : DetState) : Handler → DetState
  | .mk typ body lineno =>
    let s1 := { s with issues := s.issues ++ handler_issues s.filename body lineno }
    let s2 := match typ with
      | some e => visitExpr s1 e
      | none => s1
    visitStmtList s2 body
/-- Visit a handler list left to right. -/
def visitHandlerList (s : DetState) : HandlerList → DetState
  | .nil => s
  | .cons h rest => visitHandlerList (visitHandler s h) rest
/-- Visit one expression: `visit_Call` plus generic traversal of
children (callee first, then arguments). -/
def visitExpr (s : DetState) : Expr → DetState
  | .callE f args lineno =>
    let s1 := { s with issues :=
      s.issues ++ call_issues s.current_class s.current_function s.filename f lineno }
    visitExprList (visitExpr s1 f) args
  | .attributeE v _ => visitExpr s v
  | .binOpE a b => visitExpr (visitExpr s a) b
  | .nameE _ => s
  | .constE => s
/-- Visit an expression list left to right. -/
def visitExprList (s : DetState) : ExprList → DetState
  | .nil => s
  | .cons e rest => visitExprList (visitExpr s e) rest
end

/-- Visit an optional child node. -/
def visitOptExpr (s : DetState) : Option Expr → DetState
  | some e => visitExpr s e
  | none => s

/-- `FakeDataDetector.detect`: `ast.parse` is modelled by the `tree`
argument, `none` standing for a `SyntaxError` that the method absorbs;
the text scanner runs in every case. -/
def detect (tree : Option StmtList) (fn : String) (source : String)
    (featurePatterns : List String) : List Issue :=
  let lines := splitNewlines source
  let s0 : DetState :=
    { filename := fn, lines := lines, featurePatterns := featurePatterns,
      current_function := none, current_class := none, issues := [] }
  let s1 := match tree with
    | some body => visitStmtList s0 body
    | none => s0
  s1.issues ++ detect_text_patterns fn lines

/-! ## Derived definitions used to state and prove the claims -/

/-- Count of `exception_hiding` issues in a list. -/
def countEH (issues : List Issue) : Nat :=
  issues.countP (fun i => i.pattern == "exception_hiding")

/-- Is the expression a node the call-name walk can consume (a `Name`
or an `Attribute`)? -/
def chainAtom : Expr → Bool
  | .nameE _ => true
  | .attributeE _ _ => true
  | _ => false

mutual
/-- All issues the walker appends while visiting an expression in a
fixed scope context (expressions never change the context). -/
def exprIssues (cc cf : Option String) (fn : String) : Expr → List Issue
  | .callE f args l =>
    call_issues cc cf fn f l ++ exprIssues cc cf fn f ++ exprListIssues cc cf fn args
  | .attributeE v _ => exprIssues cc cf fn v
  | .binOpE a b => exprIssues cc cf fn a ++ exprIssues cc cf fn b
  | .nameE _ => []
  | .constE => []
/-- All issues the walker appends while visiting an expression list. -/
def exprListIssues (cc cf : Option String) (fn : String) : ExprList → List Issue
  | .nil => []
  | .cons e rest => exprIssues cc cf fn e ++ exprListIssues cc cf fn rest
end

/-! ## Helper lemmas -/

theorem emit_keep_eq (name : String) (mk : String × String → Issue) :
    ∀ (ps : List (String × String)) (acc : List Issue),
      ps.foldl (fun acc p => if strContains name p.1 = true then acc else acc) acc = acc := by
  intro ps
  induction ps with
  | nil => intro acc; simp
  | cons p rest ih => intro acc; simp [List.foldl_cons, ih]

theorem emit_append_eq (name : String) (mk : String × String → Issue) :
    ∀ (ps : List (String × String)) (acc : List Issue),
      ps.foldl (fun acc p => if strContains name p.1 = true then acc ++ [mk p] else acc) acc
        = acc ++ (ps.filter (fun p => strContains name p.1)).map mk := by
  intro ps
  induction ps with
  | nil => intro acc; simp
  | cons p rest ih =>
    intro acc
    by_cases hc : strContains name p.1 = true
    · simp [List.foldl_cons, hc, ih, List.filter_cons]
    · simp only [Bool.not_eq_true] at hc
      simp [List.foldl_cons, hc, ih, List.filter_cons]

theorem call_issues_eq (cc cf : Option String) (fn : String) (f : Expr) (l : Nat) :
    call_issues cc cf fn f l
      = if is_allowed_context cc cf = true then []
        else (FAKE_DATA_PATTERNS.filter
                (fun p => strContains (get_call_name f) p.1)).map
              (callPatternIssue fn l (get_call_name f)) := by
  by_cases ha : is_allowed_context cc cf = true
  · simp only [call_issues, ha, if_true]
    exact emit_keep_eq (get_call_name f) (callPatternIssue fn l (get_call_name f))
      FAKE_DATA_PATTERNS []
  · simp only [Bool.not_eq_true] at ha
    simp only [call_issues, ha, Bool.false_eq_true, if_false]
    simpa using emit_append_eq (get_call_name f) (callPatternIssue fn l (get_call_name f))
      FAKE_DATA_PATTERNS []

mutual
theorem visitExpr_spec : ∀ (s : DetState) (e : Expr),
    visitExpr s e
      = { s with issues :=
            s.issues ++ exprIssues s.current_class s.current_function s.filename e }
  | s, .nameE id => by simp [visitExpr, exprIssues]
  | s, .constE => by simp [visitExpr, exprIssues]
  | s, .attributeE v a => by
    have h := visitExpr_spec s v
    simp only [visitExpr, exprIssues]
    exact h
  | s, .binOpE a b => by
    have h1 := visitExpr_spec s a
    have h2 := visitExpr_spec (visitExpr s a) b
    rw [h1] at h2
    simp only [visitExpr, exprIssues]
    rw [h1, h2]
    simp [List.append_assoc]
  | s, .callE f args l => by
    have h1 := visitExpr_spec
      { s with issues :=
          s.issues ++ call_issues s.current_class s.current_function s.filename f l } f
    have h2 := visitExprList_spec
      (visitExpr
        { s with issues :=
            s.issues ++ call_issues s.current_class s.current_function s.filename f l } f)
      args
    rw [h1] at h2
    simp only [visitExpr, exprIssues]
    rw [h1, h2]
    simp [List.append_assoc]
theorem visitExprList_spec : ∀ (s : DetState) (es : ExprList),
    visitExprList s es
      = { s with issues :=
            s.issues ++ exprListIssues s.current_class s.current_function s.filename es }
  | s, .nil => by simp [visitExprList, exprListIssues]
  | s, .cons e rest => by
    have h1 := visitExpr_spec s e
    have h2 := visitExprList_spec (visitExpr s e) rest
    rw [h1] at h2
    simp only [visitExprList, exprListIssues]
    rw [h1, h2]
    simp [List.append_assoc]
end

mutual
theorem exprIssues_allowed (cc cf : Option String) (fn : String)
    (h : is_allowed_context cc cf = true) : (e : Expr) → exprIssues cc cf fn e = []
  | .nameE _ => rfl
  | .constE => rfl
  | .attributeE v _ => by
    simp only [exprIssues]
    exact exprIssues_allowed cc cf fn h v
  | .binOpE a b => by
    simp only [exprIssues, exprIssues_allowed cc cf fn h a, exprIssues_allowed cc cf fn h b,
      List.append_nil]
  | .callE f args l => by
    simp only [exprIssues, exprIssues_allowed cc cf fn h f,
      exprListIssues_allowed cc cf fn h args, call_issues_eq, h, if_true, List.append_nil]
theorem exprListIssues_allowed (cc cf : Option String) (fn : String)
    (h : is_allowed_context cc cf = true) : (es : ExprList) → exprListIssues cc cf fn es = []
  | .nil => rfl
  | .cons e rest => by
    simp only [exprListIssues, exprIssues_allowed cc cf fn h e,
      exprListIssues_allowed cc cf fn h rest, List.append_nil]
end

theorem countEH_append (a b : List Issue) : countEH (a ++ b) = countEH a + countEH b := by
  simp [countEH, List.countP_append]

theorem countEH_call_issues (cc cf : Option String) (fn : String) (f : Expr) (l : Nat) :
    countEH (call_issues cc cf fn f l) = 0 := by
  rw [call_issues_eq]
  split
  · rfl
  · have hsub : (FAKE_DATA_PATTERNS.filter
        (fun p => strContains (get_call_name f) p.1)).countP
          (fun p => p.1 == "exception_hiding")
        ≤ FAKE_DATA_PATTERNS.countP (fun p => p.1 == "exception_hiding") :=
      (List.filter_sublist _).countP_le _
    have hz : FAKE_DATA_PATTERNS.countP (fun p => p.1 == "exception_hiding") = 0 := by decide
    simp only [countEH, List.countP_map]
    have : ((fun i => i.pattern == "exception_hiding") ∘
        callPatternIssue fn l (get_call_name f))
        = (fun p : String × String => p.1 == "exception_hiding") := by
      funext p
      rfl
    rw [this]
    omega

mutual
theorem countEH_exprIssues (cc cf : Option String) (fn : String) :
    (e : Expr) → countEH (exprIssues cc cf fn e) = 0
  | .nameE _ => rfl
  | .constE => rfl
  | .attributeE v _ => by
    simp only [exprIssues]
    exact countEH_exprIssues cc cf fn v
  | .binOpE a b => by
    simp only [exprIssues, countEH_append, countEH_exprIssues cc cf fn a,
      countEH_exprIssues cc cf fn b]
  | .callE f args l => by
    simp only [exprIssues, countEH_append, countEH_exprIssues cc cf fn f,
      countEH_exprListIssues cc cf fn args, countEH_call_issues]
theorem countEH_exprListIssues (cc cf : Option String) (fn : String) :
    (es : ExprList) → countEH (exprListIssues cc cf fn es) = 0
  | .nil => rfl
  | .cons e rest => by
    simp only [exprListIssues, countEH_append, countEH_exprIssues cc cf fn e,
      countEH_exprListIssues cc cf fn rest]
end

theorem visitStmt_pass (s : DetState) (st : Stmt) (h : isPass st = true) :
    visitStmt s st = s := by
  cases st <;> simp [isPass] at h <;> rfl

theorem visitStmtList_pass : (body : StmtList) → ∀ s : DetState,
    allPass body = true → visitStmtList s body = s
  | .nil, s, _ => rfl
  | .cons st rest, s, h => by
    have hp : isPass st = true := by
      simp only [allPass, Bool.and_eq_true] at h
      exact h.1
    have hr : allPass rest = true := by
      simp only [allPass, Bool.and_eq_true] at h
      exact h.2
    simp only [visitStmtList, visitStmt_pass s st hp]
    exact visitStmtList_pass rest s hr

theorem filter_map_comm {α β : Type} (f : α → β) (p : β → Bool) :
    ∀ l : List α, (l.map f).filter p = (l.filter (fun a => p (f a))).map f := by
  intro l
  induction l with
  | nil => rfl
  | cons a rest ih =>
    by_cases hc : p (f a) = true
    · simp [List.filter_cons, hc, ih]
    · simp only [Bool.not_eq_true] at hc
      simp [List.filter_cons, hc, ih]

theorem textScan_mem (fn : String) : ∀ (lines : List String) (start idx : Nat) (line : String),
    lines[idx]? = some line →
    ∀ i ∈ line_issues fn (start + idx) line, i ∈ textScan fn start lines
  | [], _, idx, _, h => by simp at h
  | l :: rest, start, 0, line, h => by
    simp only [List.getElem?_cons_zero, Option.some.injEq] at h
    subst h
    intro i hi
    simp only [textScan, List.mem_append]
    exact Or.inl (by simpa using hi)
  | l :: rest, start, idx + 1, line, h => by
    intro i hi
    have h' : rest[idx]? = some line := by simpa using h
    have hi' : i ∈ line_issues fn (start + 1 + idx) line := by
      have : start + 1 + idx = start + (idx + 1) := by omega
      rw [this]
      exact hi
    have := textScan_mem fn rest (start + 1) idx line h' i hi'
    simp only [textScan, List.mem_append]
    exact Or.inr this

theorem weight_sum : ∀ (issues : List Issue),
    (∀ i ∈ issues, i.severity = "CRITICAL" ∨ i.severity = "WARNING" ∨ i.severity = "INFO") →
    (issues.map (fun i => severityWeight i.severity)).sum
      = 10 * issues.countP (fun i => i.severity == "CRITICAL")
        + 3 * issues.countP (fun i => i.severity == "WARNING")
        + issues.countP (fun i => i.severity == "INFO") := by
  intro issues
  induction issues with
  | nil => intro _; simp
  | cons i rest ih =>
    intro h
    have hi := h i (by simp)
    have ihr := ih (fun j hj => h j (List.mem_cons_of_mem _ hj))
    rw [List.map_cons, List.sum_cons, ihr]
    rcases hi with h1 | h1 | h1 <;>
      simp [severityWeight, h1, List.countP_cons] <;> omega

/-- C7: for a result whose issues all carry one of the three known
severities, the BS score is the weighted count formula
(10·critical + 3·warning + 1·info) divided by `max(files_scanned, 1)`. -/
theorem c7_bs_score_formula (r : DetectionResult)
    (h : ∀ i ∈ r.issues, i.severity = "CRITICAL" ∨ i.severity = "WARNING" ∨ i.severity = "INFO") :
    bs_score r
      = (10 * (critical_count r : ℚ) + 3 * (warning_count r : ℚ) + (info_count r : ℚ))
        / (max r.files_scanned 1 : ℚ) := by
  unfold bs_score critical_count warning_count info_count
  rw [weight_sum r.issues h]
  push_cast
  ring_nf

/-- Witness for C7: one CRITICAL and one WARNING issue give score 13
for one scanned file and 13/2 = 6.5 for two scanned files. -/
theorem c7_witness :
    bs_score { issues := [⟨"CRITICAL", "a.py", 1, "m", "p", none⟩,
                          ⟨"WARNING", "a.py", 2, "m", "p", none⟩], files_scanned := 1 } = 13
    ∧ bs_score { issues := [⟨"CRITICAL", "a.py", 1, "m", "p", none⟩,
                            ⟨"WARNING", "a.py", 2, "m", "p", none⟩], files_scanned := 2 } = 13 / 2 := by
  have hc : critical_count { issues := [⟨"CRITICAL", "a.py", 1, "m", "p", none⟩,
      ⟨"WARNING", "a.py", 2, "m", "p", none⟩], files_scanned := 1 } = 1 := by decide
  have hw : warning_count { issues := [⟨"CRITICAL", "a.py", 1, "m", "p", none⟩,
      ⟨"WARNING", "a.py", 2, "m", "p", none⟩], files_scanned := 1 } = 1 := by decide
  have hi : info_count { issues := [⟨"CRITICAL", "a.py", 1, "m", "p", none⟩,
      ⟨"WARNING", "a.py", 2, "m", "p", none⟩], files_scanned := 1 } = 0 := by decide
  have hc2 : critical_count { issues := [⟨"CRITICAL", "a.py", 1, "m", "p", none⟩,
      ⟨"WARNING", "a.py", 2, "m", "p", none⟩], files_scanned := 2 } = 1 := by decide
  have hw2 : warning_count { issues := [⟨"CRITICAL", "a.py", 1, "m", "p", none⟩,
      ⟨"WARNING", "a.py", 2, "m", "p", none⟩], files_scanned := 2 } = 1 := by decide
  have hi2 : info_count { issues := [⟨"CRITICAL", "a.py", 1, "m", "p", none⟩,
      ⟨"WARNING", "a.py", 2, "m", "p", none⟩], files_scanned := 2 } = 0 := by decide
  constructor
  · rw [c7_bs_score_formula _ (by decide), hc, hw, hi]
    norm_num
  · rw [c7_bs_score_formula _ (by decide), hc2, hw2, hi2]
    norm_num

/-- C8: `passed` is true exactly when `critical_count` is zero, and it
depends on a result only through `critical_count`. -/
theorem c8_passed_iff (r r1 r2 : DetectionResult)
    (hc : critical_count r1 = critical_count r2) :
    (passed r = true ↔ critical_count r = 0) ∧ passed r1 = passed r2 := by
  constructor
  · simp [passed]
  · simp [passed, hc]

/-- Witness for C8: two results with equal critical counts but
different warnings, infos and file counts have the same verdict. -/
theorem c8_witness :
    (passed { issues := [], files_scanned := 0 } = true
      ↔ critical_count { issues := [], files_scanned := 0 } = 0)
    ∧ passed { issues := [⟨"WARNING", "a.py", 1, "m", "p", none⟩], files_scanned := 1 }
        = passed { issues := [⟨"INFO", "a.py", 1, "m", "p", none⟩,
                              ⟨"INFO", "b.py", 2, "m", "p", none⟩], files_scanned := 5 } :=
  c8_passed_iff { issues := [], files_scanned := 0 }
    { issues := [⟨"WARNING", "a.py", 1, "m", "p", none⟩], files_scanned := 1 }
    { issues := [⟨"INFO", "a.py", 1, "m", "p", none⟩,
                 ⟨"INFO", "b.py", 2, "m", "p", none⟩], files_scanned := 5 }
    (by decide)

/-- C10: the fake-success regex is evaluated on the full raw line, so a
comment-only line still fires; comment stripping applies only to the
`pass` half of the TODO check, while `TODO` is also found inside the
comment portion. -/
theorem c10_text_patterns_comment_handling (fn : String) :
    detect_text_patterns fn ["# print(\"done\")"] = [fake_success_issue fn 1]
    ∧ detect_text_patterns fn ["pass  # TODO: fix"] = [todo_pass_issue fn 1]
    ∧ detect_text_patterns fn ["# TODO: pass"] = []
    ∧ ∀ line : String,
        fake_success_issue fn 1 ∈ detect_text_patterns fn [line]
          ↔ reSearchFakeSuccess line = true := by
  refine ⟨rfl, rfl, rfl, ?_⟩
  intro line
  simp only [detect_text_patterns, textScan, List.append_nil]
  cases hf : reSearchFakeSuccess line with
  | false =>
    simp only [line_issues, hf, Bool.false_eq_true, if_false, List.nil_append]
    constructor
    · intro hmem
      exfalso
      split at hmem
      · simp [fake_success_issue, todo_pass_issue] at hmem
      · simp at hmem
    · intro hcontra
      cases hcontra
  | true =>
    simp [line_issues, hf]

/-- C1 counterexample: the raw line of `x = 0.6 * base` matches the
magic-number regex, yet no Issue at all is emitted for target `x`,
because the target name contains no feature pattern — refuting the
claim that the magic-number warning is independent of the
feature-name condition. -/
theorem c1_counterexample :
    reSearchMagic "x = 0.6 * base" = true
    ∧ assign_issues FEATURE_PATTERNS "data.py" ["x = 0.6 * base"] [Target.nameT "x"] 1 = [] :=
  ⟨rfl, rfl⟩

/-- C1 amended: for a simple-name target, the `magic_number` WARNING is
emitted when the target name contains a feature pattern and the raw
line matches the regex — then independently of the random-source
condition — and no assignment issue at all is emitted when the target
name contains no feature pattern. -/
theorem c1_amended (fp : List String) (fn : String) (lines : List String)
    (varA varB : String) (l : Nat)
    (hA : fp.any (fun kw => strContains (lowerStr varA) kw) = true)
    (hmagic : reSearchMagic (get_source_line lines l) = true)
    (hB : fp.any (fun kw => strContains (lowerStr varB) kw) = false) :
    assign_issues fp fn lines [Target.nameT varA] l
      = (if strContains (get_source_line lines l) "np.random"
            || strContains (get_source_line lines l) "random." then
           [featureRandomIssue fn l varA]
         else [])
        ++ [magicNumberIssue fn l varA]
    ∧ assign_issues fp fn lines [Target.nameT varB] l = [] := by
  constructor
  · simp only [assign_issues, List.foldl_cons, List.foldl_nil, hA, if_true, hmagic]
    split <;> simp
  · simp only [assign_issues, List.foldl_cons, List.foldl_nil, hB, Bool.false_eq_true, if_false]

/-- Witness for C1 amended: `feature_x = 0.6 * base` yields exactly the
`magic_number` WARNING (no random source on the line), while the same
line assigned to plain `x` yields nothing. -/
theorem c1_witness :
    assign_issues FEATURE_PATTERNS "data.py" ["feature_x = 0.6 * base"]
        [Target.nameT "feature_x"] 1
      = [magicNumberIssue "data.py" 1 "feature_x"]
    ∧ assign_issues FEATURE_PATTERNS "data.py" ["feature_x = 0.6 * base"]
        [Target.nameT "x"] 1 = [] := by
  have h := c1_amended FEATURE_PATTERNS "data.py" ["feature_x = 0.6 * base"] "feature_x" "x" 1
    (by decide) (by decide) (by decide)
  refine ⟨?_, h.2⟩
  rw [h.1]
  decide

/-- C3 counterexample: for the callee of `f().random.uniform(...)` —
an attribute chain hanging off a call result — resolution does NOT
yield the empty string: it yields the partial name `random.uniform`,
which matches the rule table and emits a CRITICAL Issue. -/
theorem c3_counterexample :
    get_call_name (Expr.attributeE
        (Expr.attributeE (Expr.callE (Expr.nameE "f") ExprList.nil 1) "random") "uniform")
      = "random.uniform"
    ∧ get_call_name (Expr.attributeE
        (Expr.attributeE (Expr.callE (Expr.nameE "f") ExprList.nil 1) "random") "uniform") ≠ ""
    ∧ call_issues none none "data.py"
        (Expr.attributeE
          (Expr.attributeE (Expr.callE (Expr.nameE "f") ExprList.nil 1) "random") "uniform") 1
      = [callPatternIssue "data.py" 1 "random.uniform" ("random.uniform", "CRITICAL")] :=
  ⟨rfl, by decide, rfl⟩

/-- C3 amended: resolution yields the empty string exactly when the
callee expression is itself neither an identifier nor an attribute
node (e.g. a direct call on a call result); in that case no rule can
match and no call-pattern Issue is emitted. For an attribute chain
over a non-identifier root the walk instead keeps the attribute
segments seen so far, so rules can still match the partial name. -/
theorem c3_amended (cc cf : Option String) (fn : String) (l : Nat) :
    ∀ e : Expr, chainAtom e = false →
      get_call_name e = "" ∧ call_issues cc cf fn e l = [] := by
  intro e he
  have hname : get_call_name e = "" := by
    cases e <;> first | rfl | simp [chainAtom] at he
  refine ⟨hname, ?_⟩
  rw [call_issues_eq, hname]
  split
  · rfl
  · rfl

/-- Witness for C3 amended: a call whose callee is itself a call
(`f()(...)`) resolves to the empty name and emits nothing. -/
theorem c3_witness :
    get_call_name (Expr.callE (Expr.nameE "f") ExprList.nil 1) = ""
    ∧ call_issues none none "data.py" (Expr.callE (Expr.nameE "f") ExprList.nil 1) 2 = [] :=
  c3_amended none none "data.py" 2 (Expr.callE (Expr.nameE "f") ExprList.nil 1) rfl

/-- C2 counterexample: a call resolving exactly to `np.random.randn`,
outside any allowed context, produces TWO Issues — the name also
contains the distinct key `np.random.rand` as a substring — refuting
"exactly one Issue". -/
theorem c2_counterexample :
    get_call_name (Expr.attributeE (Expr.attributeE (Expr.nameE "np") "random") "randn")
      = "np.random.randn"
    ∧ is_allowed_context none none = false
    ∧ (call_issues none none "data.py"
        (Expr.attributeE (Expr.attributeE (Expr.nameE "np") "random") "randn") 1).map
          (fun i => i.pattern)
      = ["np.random.rand", "np.random.randn"] :=
  ⟨rfl, rfl, rfl⟩

/-- C2 amended: outside any allowed context, each rule key occurring as
a substring of the resolved name contributes exactly one Issue tagged
with that key and carrying that key's severity; a resolved name that
exactly equals a key therefore gets exactly one Issue FOR THAT KEY,
but further keys contained in the name each add their own Issue. -/
theorem c2_amended (cc cf : Option String) (fn : String) (f : Expr) (l : Nat)
    (key sev : String)
    (hmem : (key, sev) ∈ FAKE_DATA_PATTERNS)
    (hctx : is_allowed_context cc cf = false)
    (hsub : strContains (get_call_name f) key = true) :
    (call_issues cc cf fn f l).filter (fun i => i.pattern == key)
      = [callPatternIssue fn l (get_call_name f) (key, sev)] := by
  rw [call_issues_eq, if_neg (by simp [hctx])]
  rw [filter_map_comm]
  have hpat : (fun p : String × String =>
        (callPatternIssue fn l (get_call_name f) p).pattern == key)
      = (fun p : String × String => p.1 == key) := rfl
  rw [hpat, List.filter_filter]
  simp only [FAKE_DATA_PATTERNS, List.mem_cons, List.not_mem_nil, or_false,
    Prod.mk.injEq] at hmem
  rcases hmem with ⟨hk, hs⟩ | ⟨hk, hs⟩ | ⟨hk, hs⟩ | ⟨hk, hs⟩ | ⟨hk, hs⟩ | ⟨hk, hs⟩
    | ⟨hk, hs⟩ | ⟨hk, hs⟩ | ⟨hk, hs⟩ <;>
    subst hk <;> subst hs <;>
    simp [FAKE_DATA_PATTERNS, List.filter, hsub]

/-- Witness for C2 amended: the key `np.random.uniform` matched by a
call resolving exactly to it yields exactly one Issue for that key,
with the key's CRITICAL severity. -/
theorem c2_witness :
    (call_issues none none "data.py"
        (Expr.attributeE (Expr.attributeE (Expr.nameE "np") "random") "uniform") 1).filter
          (fun i => i.pattern == "np.random.uniform")
      = [callPatternIssue "data.py" 1 "np.random.uniform" ("np.random.uniform", "CRITICAL")] :=
  c2_amended none none "data.py"
    (Expr.attributeE (Expr.attributeE (Expr.nameE "np") "random") "uniform") 1
    "np.random.uniform" "CRITICAL" (by decide) rfl rfl

/-- C4: in an allowed scope context every call-pattern match is
suppressed — visiting any expression adds no issue — while the
assignment heuristics and the exception-concealment check still emit
their issues unchanged in that same context. -/
theorem c4_context_suppression (s : DetState)
    (h : is_allowed_context s.current_class s.current_function = true)
    (e : Expr) (targets : List Target) (v : Expr) (l : Nat)
    (typ : Option Expr) (body : StmtList) (hb : allPass body = true) :
    (visitExpr s e).issues = s.issues
    ∧ (visitStmt s (.assignS targets v l)).issues
        = s.issues ++ assign_issues s.featurePatterns s.filename s.lines targets l
    ∧ (visitHandler s (.mk typ body l)).issues
        = s.issues ++ [exception_hiding_issue s.filename l] := by
  have hexpr : ∀ (s' : DetState),
      s'.current_class = s.current_class → s'.current_function = s.current_function →
      ∀ e' : Expr, (visitExpr s' e').issues = s'.issues := by
    intro s' hcc hcf e'
    rw [visitExpr_spec, hcc, hcf]
    simp [exprIssues_allowed _ _ _ h]
  refine ⟨hexpr s rfl rfl e, ?_, ?_⟩
  · simp only [visitStmt]
    exact hexpr
      { s with issues := s.issues ++ assign_issues s.featurePatterns s.filename s.lines targets l }
      rfl rfl v
  · have hh : handler_issues s.filename body l = [exception_hiding_issue s.filename l] := by
      simp [handler_issues, hb]
    simp only [visitHandler, hh]
    rw [visitStmtList_pass body _ hb]
    cases typ with
    | none => rfl
    | some e' =>
      exact hexpr { s with issues := s.issues ++ [exception_hiding_issue s.filename l] }
        rfl rfl e'

/-- Witness for C4: inside a function named `test_foo`, a
`random.uniform` call emits nothing, while an assignment to
`feature_x` from a line containing `np.random` still emits its
CRITICAL issue and an all-`pass` handler still emits
`exception_hiding`. -/
theorem c4_witness :
    (visitExpr
        { filename := "t.py", lines := ["feature_x = np.random.rand(10)"],
          featurePatterns := FEATURE_PATTERNS, current_function := some "test_foo",
          current_class := none, issues := [] }
        (Expr.callE (Expr.attributeE (Expr.nameE "random") "uniform") ExprList.nil 1)).issues = []
    ∧ (visitStmt
        { filename := "t.py", lines := ["feature_x = np.random.rand(10)"],
          featurePatterns := FEATURE_PATTERNS, current_function := some "test_foo",
          current_class := none, issues := [] }
        (.assignS [Target.nameT "feature_x"] Expr.constE 1)).issues
      = [] ++ assign_issues FEATURE_PATTERNS "t.py" ["feature_x = np.random.rand(10)"]
          [Target.nameT "feature_x"] 1
    ∧ (visitHandler
        { filename := "t.py", lines := ["feature_x = np.random.rand(10)"],
          featurePatterns := FEATURE_PATTERNS, current_function := some "test_foo",
          current_class := none, issues := [] }
        (.mk none (StmtList.cons (.passS 3) StmtList.nil) 1)).issues
      = [] ++ [exception_hiding_issue "t.py" 1]
    ∧ assign_issues FEATURE_PATTERNS "t.py" ["feature_x = np.random.rand(10)"]
        [Target.nameT "feature_x"] 1
      = [featureRandomIssue "t.py" 1 "feature_x"] := by
  refine ⟨?_, ?_, ?_, by decide⟩
  · exact (c4_context_suppression
      { filename := "t.py", lines := ["feature_x = np.random.rand(10)"],
        featurePatterns := FEATURE_PATTERNS, current_function := some "test_foo",
        current_class := none, issues := [] } rfl
      (Expr.callE (Expr.attributeE (Expr.nameE "random") "uniform") ExprList.nil 1)
      [Target.nameT "feature_x"] Expr.constE 1 none
      (StmtList.cons (.passS 3) StmtList.nil) rfl).1
  · exact (c4_context_suppression
      { filename := "t.py", lines := ["feature_x = np.random.rand(10)"],
        featurePatterns := FEATURE_PATTERNS, current_function := some "test_foo",
        current_class := none, issues := [] } rfl
      (Expr.callE (Expr.attributeE (Expr.nameE "random") "uniform") ExprList.nil 1)
      [Target.nameT "feature_x"] Expr.constE 1 none
      (StmtList.cons (.passS 3) StmtList.nil) rfl).2.1
  · have h := (c4_context_suppression
      { filename := "t.py", lines := ["feature_x = np.random.rand(10)"],
        featurePatterns := FEATURE_PATTERNS, current_function := some "test_foo",
        current_class := none, issues := [] } rfl
      (Expr.callE (Expr.attributeE (Expr.nameE "random") "uniform") ExprList.nil 1)
      [Target.nameT "feature_x"] Expr.constE 1 none
      (StmtList.cons (.passS 3) StmtList.nil) rfl).2.2
    exact h

/-- C5: a handler whose body is empty or all-`pass` adds exactly one
`exception_hiding` issue — CRITICAL, at the handler clause's line —
regardless of the declared filter; a handler with a non-no-op body adds
nothing of its own, and a handler containing only a bare logging call
emits no issue at all. -/
theorem c5_exception_hiding (s : DetState) (typ : Option Expr) (body body2 : StmtList)
    (l l2 : Nat) (h1 : allPass body = true) (h2 : allPass body2 = false) :
    countEH (visitHandler s (.mk typ body l)).issues = countEH s.issues + 1
    ∧ exception_hiding_issue s.filename l ∈ (visitHandler s (.mk typ body l)).issues
    ∧ visitHandler s (.mk typ body2 l2) = visitStmtList (visitOptExpr s typ) body2
    ∧ (visitHandler s (.mk none
        (StmtList.cons (.exprS (.callE (.attributeE (.nameE "logger") "info") .nil l2) l2)
          StmtList.nil) l2)).issues
      = s.issues := by
  have hh : handler_issues s.filename body l = [exception_hiding_issue s.filename l] := by
    simp [handler_issues, h1]
  have hfire : visitHandler s (.mk typ body l)
      = visitOptExpr { s with issues := s.issues ++ [exception_hiding_issue s.filename l] } typ := by
    simp only [visitHandler, hh]
    rw [visitStmtList_pass body _ h1]
    cases typ <;> rfl
  refine ⟨?_, ?_, ?_, ?_⟩
  · rw [hfire]
    cases typ with
    | none =>
      simp [visitOptExpr, countEH_append, countEH, exception_hiding_issue]
    | some e' =>
      simp only [visitOptExpr]
      rw [visitExpr_spec]
      have hone : countEH [exception_hiding_issue s.filename l] = 1 := rfl
      simp only [countEH_append, countEH_exprIssues, hone]
  · rw [hfire]
    cases typ with
    | none => simp [visitOptExpr]
    | some e' =>
      simp only [visitOptExpr]
      rw [visitExpr_spec]
      simp
  · have hne : isEmptySL body2 = false := by
      cases body2 with
      | nil => simp [allPass] at h2
      | cons _ _ => rfl
    have hh2 : handler_issues s.filename body2 l2 = [] := by
      simp [handler_issues, hne, h2]
    simp only [visitHandler, hh2, List.append_nil, visitOptExpr]
  · have hcall : call_issues s.current_class s.current_function s.filename
        (.attributeE (.nameE "logger") "info") l2 = [] := by
      rw [call_issues_eq]
      split
      · rfl
      · rfl
    simp only [visitHandler, handler_issues, isEmptySL, allPass, isPass, Bool.false_and,
      Bool.or_false, if_false, List.append_nil, visitStmtList, visitStmt, visitExpr,
      visitExprList, hcall]
    simp

/-- Witness for C5: a handler with a single `pass` statement and a
declared filter gains exactly one `exception_hiding` issue; a handler
whose body is a bare `logger.info()` call adds nothing. -/
theorem c5_witness :
    countEH (visitHandler
        { filename := "t.py", lines := [], featurePatterns := FEATURE_PATTERNS,
          current_function := none, current_class := none, issues := [] }
        (.mk (some (Expr.nameE "ValueError")) (StmtList.cons (.passS 5) StmtList.nil) 4)).issues
      = countEH ([] : List Issue) + 1
    ∧ exception_hiding_issue "t.py" 4 ∈ (visitHandler
        { filename := "t.py", lines := [], featurePatterns := FEATURE_PATTERNS,
          current_function := none, current_class := none, issues := [] }
        (.mk (some (Expr.nameE "ValueError")) (StmtList.cons (.passS 5) StmtList.nil) 4)).issues
    ∧ visitHandler
        { filename := "t.py", lines := [], featurePatterns := FEATURE_PATTERNS,
          current_function := none, current_class := none, issues := [] }
        (.mk (some (Expr.nameE "ValueError"))
          (StmtList.cons (.exprS (.callE (.attributeE (.nameE "logger") "info") .nil 6) 6)
            StmtList.nil) 6)
      = visitStmtList
          (visitOptExpr
            { filename := "t.py", lines := [], featurePatterns := FEATURE_PATTERNS,
              current_function := none, current_class := none, issues := [] }
            (some (Expr.nameE "ValueError")))
          (StmtList.cons (.exprS (.callE (.attributeE (.nameE "logger") "info") .nil 6) 6)
            StmtList.nil)
    ∧ (visitHandler
        { filename := "t.py", lines := [], featurePatterns := FEATURE_PATTERNS,
          current_function := none, current_class := none, issues := [] }
        (.mk none
          (StmtList.cons (.exprS (.callE (.attributeE (.nameE "logger") "info") .nil 6) 6)
            StmtList.nil) 6)).issues
      = [] :=
  c5_exception_hiding
    { filename := "t.py", lines := [], featurePatterns := FEATURE_PATTERNS,
      current_function := none, current_class := none, issues := [] }
    (some (Expr.nameE "ValueError"))
    (StmtList.cons (.passS 5) StmtList.nil)
    (StmtList.cons (.exprS (.callE (.attributeE (.nameE "logger") "info") .nil 6) 6)
      StmtList.nil)
    4 6 rfl rfl

/-- C6: `detect` is total; on parse failure it returns exactly the text
scanner's issues (no tree-based issue, no issue for the failure
itself), and every fake-success and TODO+pass line of the raw text
still contributes its issue at its 1-based line number. -/
theorem c6_parse_failure (fn src : String) (fp : List String) (idx : Nat) (line : String)
    (hget : (splitNewlines src)[idx]? = some line)
    (hfake : reSearchFakeSuccess line = true)
    (htodo : (strContains line "TODO" && strContains (takeBeforeHash line) "pass") = true) :
    detect none fn src fp = detect_text_patterns fn (splitNewlines src)
    ∧ fake_success_issue fn (idx + 1) ∈ detect none fn src fp
    ∧ todo_pass_issue fn (idx + 1) ∈ detect none fn src fp := by
  have heq : detect none fn src fp = detect_text_patterns fn (splitNewlines src) := by
    simp [detect]
  refine ⟨heq, ?_, ?_⟩
  · rw [heq]
    have hmem : fake_success_issue fn (1 + idx) ∈ line_issues fn (1 + idx) line := by
      simp [line_issues, hfake]
    have hres := textScan_mem fn (splitNewlines src) 1 idx line hget _ hmem
    rw [Nat.add_comm 1 idx] at hres
    simpa [detect_text_patterns] using hres
  · rw [heq]
    have hmem : todo_pass_issue fn (1 + idx) ∈ line_issues fn (1 + idx) line := by
      simp [line_issues, htodo]
    have hres := textScan_mem fn (splitNewlines src) 1 idx line hget _ hmem
    rw [Nat.add_comm 1 idx] at hres
    simpa [detect_text_patterns] using hres

/-- Witness for C6: a file whose first line is not valid Python still
yields the fake-success and TODO+pass issues of its second line. -/
theorem c6_witness :
    detect none "t.py" "def f(:\npass  # TODO print(\"done\")" FEATURE_PATTERNS
      = detect_text_patterns "t.py" (splitNewlines "def f(:\npass  # TODO print(\"done\")")
    ∧ fake_success_issue "t.py" 2
        ∈ detect none "t.py" "def f(:\npass  # TODO print(\"done\")" FEATURE_PATTERNS
    ∧ todo_pass_issue "t.py" 2
        ∈ detect none "t.py" "def f(:\npass  # TODO print(\"done\")" FEATURE_PATTERNS :=
  c6_parse_failure "t.py" "def f(:\npass  # TODO print(\"done\")" FEATURE_PATTERNS 1
    "pass  # TODO print(\"done\")" rfl rfl rfl

/-- C9: visiting a function definition (also the asynchronous variant)
runs its body with `current_function` set to the definition's name and
restores the slot to `none` — not to the prior value — on exit; the
same holds for class definitions and `current_class`; consequently the
statements following a nested definition are processed with an empty
function context. -/
theorem c9_scope_single_slot (s : DetState) (name : String) (body : StmtList) (l : Nat)
    (rest : StmtList) (g : String) (hf : s.current_function = some g) :
    (visitStmt s (.functionDef name body l)).current_function = none
    ∧ (visitStmt s (.functionDef name body l)).current_function ≠ some g
    ∧ visitStmt s (.functionDef name body l)
        = { visitStmtList { s with current_function := some name } body with
            current_function := none }
    ∧ (visitStmt s (.asyncFunctionDef name body l)).current_function = none
    ∧ (visitStmt s (.classDef name body l)).current_class = none
    ∧ visitStmtList s (.cons (.functionDef name body l) rest)
        = visitStmtList
            { visitStmtList { s with current_function := some name } body with
              current_function := none } rest :=
  ⟨rfl, by simp [visitStmt], rfl, rfl, rfl, rfl⟩

/-- Witness for C9: with the prior context `test_foo`, a nested
definition restores the slot to `none` rather than `test_foo`, so a
`random.uniform` call placed after the nested definition — though
lexically inside `test_foo` — is no longer suppressed and emits its
CRITICAL issue. -/
theorem c9_witness :
    ((visitStmt
        { filename := "t.py", lines := [], featurePatterns := FEATURE_PATTERNS,
          current_function := some "test_foo", current_class := none, issues := [] }
        (.functionDef "bar" StmtList.nil 2)).current_function = none
    ∧ (visitStmt
        { filename := "t.py", lines := [], featurePatterns := FEATURE_PATTERNS,
          current_function := some "test_foo", current_class := none, issues := [] }
        (.functionDef "bar" StmtList.nil 2)).current_function ≠ some "test_foo"
    ∧ visitStmt
        { filename := "t.py", lines := [], featurePatterns := FEATURE_PATTERNS,
          current_function := some "test_foo", current_class := none, issues := [] }
        (.functionDef "bar" StmtList.nil 2)
      = { visitStmtList
            { filename := "t.py", lines := [], featurePatterns := FEATURE_PATTERNS,
              current_function := some "bar", current_class := none, issues := [] }
            StmtList.nil with current_function := none }
    ∧ (visitStmt
        { filename := "t.py", lines := [], featurePatterns := FEATURE_PATTERNS,
          current_function := some "test_foo", current_class := none, issues := [] }
        (.asyncFunctionDef "bar" StmtList.nil 2)).current_function = none
    ∧ (visitStmt
        { filename := "t.py", lines := [], featurePatterns := FEATURE_PATTERNS,
          current_function := some "test_foo", current_class := none, issues := [] }
        (.classDef "bar" StmtList.nil 2)).current_class = none
    ∧ visitStmtList
        { filename := "t.py", lines := [], featurePatterns := FEATURE_PATTERNS,
          current_function := some "test_foo", current_class := none, issues := [] }
        (.cons (.functionDef "bar" StmtList.nil 2)
          (.cons (.exprS (.callE (.attributeE (.nameE "random") "uniform") .nil 3) 3)
            StmtList.nil))
      = visitStmtList
          { visitStmtList
              { filename := "t.py", lines := [], featurePatterns := FEATURE_PATTERNS,
                current_function := some "bar", current_class := none, issues := [] }
              StmtList.nil with current_function := none }
          (.cons (.exprS (.callE (.attributeE (.nameE "random") "uniform") .nil 3) 3)
            StmtList.nil))
    ∧ (visitStmtList
        { filename := "t.py", lines := [], featurePatterns := FEATURE_PATTERNS,
          current_function := some "test_foo", current_class := none, issues := [] }
        (.cons (.functionDef "bar" StmtList.nil 2)
          (.cons (.exprS (.callE (.attributeE (.nameE "random") "uniform") .nil 3) 3)
            StmtList.nil))).issues.map (fun i => i.pattern)
      = ["random.uniform"] :=
  ⟨c9_scope_single_slot
    { filename := "t.py", lines := [], featurePatterns := FEATURE_PATTERNS,
      current_function := some "test_foo", current_class := none, issues := [] }
    "bar" StmtList.nil 2
    (.cons (.exprS (.callE (.attributeE (.nameE "random") "uniform") .nil 3) 3) StmtList.nil)
    "test_foo" rfl, by decide⟩
